import Mathlib

/-!
Shallow embedding of `willief/discord-message-analyzer`.

The repository has two script variants operating on DiscordChatExporter JSON
files:
  * `src/dirvine_digest.py`   — `DirvineDigestGenerator` (markdown archive/digest)
  * `src/discord_analyser.py` — `DiscordMessageAnalyzer` (per-channel text report)

We embed the data model (one JSON export file = guild/channel metadata plus a
message list), the two-pass correlation algorithm of both variants, the
timestamp parsing both perform via
`datetime.fromisoformat` after replacing Z with +00:00 in the timestamp, the chronological
(stable) sorts, the weekly time-window filter, the CLI flag handling of the
digest script, and the state effect of report generation.

Conventions:
  * Missing JSON fields are `Option.none`; `dict.get(k, d)` is `Option.getD`.
  * A missing `author` object (an absent author dictionary) is the all-`none`
    `Author`, which gives the same results under the `.get` accesses the code
    performs.
  * Python `datetime` values are the civil tuple actually stored by
    `fromisoformat` (year/month/day/hour/minute/second/microsecond plus an
    optional fixed UTC offset).  Comparison of aware datetimes is by UTC
    instant, `dt.date()` is the stored (local) civil date; both are modelled
    below (`PyDateTime.utcMicros`, `PyDateTime.dateOrdinal`).
  * `attachments` / `embeds` / `reactions` are pure pass-through payload that
    no claim concerns; they are not modelled, and the corresponding optional
    renderer branches are omitted.
  * The Python `sorted` and `list.sort` functions give is a stable sort; with a transitive total
    `≤` on the key it computes the unique stable sorting, which is also what
    `List.mergeSort` computes, so the sorts are embedded via `List.mergeSort`.
-/

/-! ## Civil-calendar arithmetic (the part of `datetime` the scripts use) -/

/-- Gregorian leap-year test, as used by the calendar of `datetime`. -/
def isLeapYear (y : Int) : Bool :=
  (Int.emod y 4 == 0 && Int.emod y 100 != 0) || Int.emod y 400 == 0

/-- Number of days in month `m` of year `y` (months are 1-based). -/
def daysInMonth (y : Int) (m : Nat) : Nat :=
  if m = 2 then (if isLeapYear y then 29 else 28)
  else if m = 4 ∨ m = 6 ∨ m = 9 ∨ m = 11 then 30
  else 31

/-- Day count of the civil date `y-m-d` relative to 1970-01-01 (the standard
days-from-civil algorithm, using floor division). -/
def daysFromCivil (y : Int) (m d : Nat) : Int :=
  let y' : Int := if m ≤ 2 then y - 1 else y
  let era : Int := Int.fdiv y' 400
  let yoe : Int := y' - era * 400
  let mp : Int := if 2 < m then (m : Int) - 3 else (m : Int) + 9
  let doy : Int := Int.fdiv (153 * mp + 2) 5 + (d : Int) - 1
  let doe : Int := yoe * 365 + Int.fdiv yoe 4 - Int.fdiv yoe 100 + doy
  era * 146097 + doe - 719468

/-- The value produced by `datetime.fromisoformat`: the stored civil fields and
the optional fixed UTC offset (in minutes); `offsetMinutes = none` is a naive
datetime such as the `datetime.now()` fallback. -/
structure PyDateTime where
  year : Nat
  month : Nat
  day : Nat
  hour : Nat
  minute : Nat
  second : Nat
  usec : Nat
  offsetMinutes : Option Int
deriving DecidableEq

/-- Model of `dt.date()` as a day ordinal: the stored (local) civil date. -/
def PyDateTime.dateOrdinal (dt : PyDateTime) : Int :=
  daysFromCivil dt.year dt.month dt.day

/-- The UTC instant of the datetime in microseconds since the epoch; aware
datetimes compare by this value in Python.  A naive datetime is placed at
offset zero (Python would refuse to compare naive with aware; the scripts only
compare like with like). -/
def PyDateTime.utcMicros (dt : PyDateTime) : Int :=
  ((daysFromCivil dt.year dt.month dt.day) * 86400
    + (dt.hour : Int) * 3600 + (dt.minute : Int) * 60 + (dt.second : Int)
    - (dt.offsetMinutes.getD 0) * 60) * 1000000 + (dt.usec : Int)

/-! ## ISO-8601 parsing (`datetime.fromisoformat` after the `Z` replace) -/

/-- One decimal digit. -/
def readDigit (c : Char) : Option Nat :=
  if c.isDigit then some (c.toNat - 48) else none

/-- Read exactly `k` decimal digits (accumulating onto `acc`). -/
def readDigits : Nat → Nat → List Char → Option (Nat × List Char)
  | 0, acc, cs => some (acc, cs)
  | _ + 1, _, [] => none
  | k + 1, acc, c :: cs =>
    match readDigit c with
    | some d => readDigits k (acc * 10 + d) cs
    | none => none

/-- Consume one expected character. -/
def expectChar (ch : Char) : List Char → Option (List Char)
  | [] => none
  | c :: cs => if c = ch then some cs else none

/-- Fractional seconds: exactly 3 or 6 digits, scaled to microseconds. -/
def readFracMicros (cs : List Char) : Option (Nat × List Char) :=
  let ds := cs.takeWhile Char.isDigit
  let rest := cs.dropWhile Char.isDigit
  let v := ds.foldl (fun a c => a * 10 + (c.toNat - 48)) 0
  if ds.length = 3 then some (v * 1000, rest)
  else if ds.length = 6 then some (v, rest)
  else none

/-- Optional trailing UTC offset `±HH:MM` (must stay below 24 hours). -/
def readOffset (cs : List Char) : Option (Option Int × List Char) :=
  match cs with
  | [] => some (none, [])
  | c :: rest =>
    if c = '+' ∨ c = '-' then
      match readDigits 2 0 rest with
      | some (oh, cs1) =>
        match expectChar ':' cs1 with
        | some cs2 =>
          match readDigits 2 0 cs2 with
          | some (om, cs3) =>
            if om ≤ 59 ∧ oh * 60 + om < 1440 then
              some (some ((if c = '+' then (1 : Int) else -1) * ((oh : Int) * 60 + (om : Int))), cs3)
            else none
          | none => none
        | none => none
      | none => none
    else none

/-- Time-of-day `HH[:MM[:SS[.ffffff]]]`. -/
def readTime (cs0 : List Char) : Option ((Nat × Nat × Nat × Nat) × List Char) :=
  match readDigits 2 0 cs0 with
  | none => none
  | some (h, cs1) =>
    match expectChar ':' cs1 with
    | none => some ((h, 0, 0, 0), cs1)
    | some cs2 =>
      match readDigits 2 0 cs2 with
      | none => none
      | some (mi, cs3) =>
        match expectChar ':' cs3 with
        | none => some ((h, mi, 0, 0), cs3)
        | some cs4 =>
          match readDigits 2 0 cs4 with
          | none => none
          | some (s, cs5) =>
            match expectChar '.' cs5 with
            | none => some ((h, mi, s, 0), cs5)
            | some cs6 =>
              match readFracMicros cs6 with
              | none => none
              | some (us, cs7) => some ((h, mi, s, us), cs7)

/-- Model of `datetime.fromisoformat` on a character list:
`YYYY-MM-DD[<sep>HH[:MM[:SS[.ffffff]]][±HH:MM]]`, with calendar validation. -/
def parseIsoChars (cs0 : List Char) : Option PyDateTime :=
  match readDigits 4 0 cs0 with
  | none => none
  | some (y, cs1) =>
    match expectChar '-' cs1 with
    | none => none
    | some cs2 =>
      match readDigits 2 0 cs2 with
      | none => none
      | some (mo, cs3) =>
        match expectChar '-' cs3 with
        | none => none
        | some cs4 =>
          match readDigits 2 0 cs4 with
          | none => none
          | some (d, cs5) =>
            if 1 ≤ y ∧ 1 ≤ mo ∧ mo ≤ 12 ∧ 1 ≤ d ∧ d ≤ daysInMonth (y : Int) mo then
              match cs5 with
              | [] => some ⟨y, mo, d, 0, 0, 0, 0, none⟩
              | _ :: cs6 =>
                match readTime cs6 with
                | none => none
                | some ((h, mi, s, us), cs7) =>
                  match readOffset cs7 with
                  | none => none
                  | some (off, cs8) =>
                    if cs8 = [] ∧ h ≤ 23 ∧ mi ≤ 59 ∧ s ≤ 59 then
                      some ⟨y, mo, d, h, mi, s, us, off⟩
                    else none
            else none

/-- Model of the replace of every Z in the timestamp by +00:00. -/
def replaceZ : List Char → List Char
  | [] => []
  | c :: cs =>
    if c = 'Z' then '+' :: '0' :: '0' :: ':' :: '0' :: '0' :: replaceZ cs
    else c :: replaceZ cs

/-- Model of `datetime.fromisoformat` after replacing Z with +00:00 in the timestamp, `none` both when
the `timestamp` field is absent (Python: `AttributeError` on `None.replace`)
and when parsing fails (`ValueError`). -/
def tryParseTimestamp (ts : Option String) : Option PyDateTime :=
  match ts with
  | none => none
  | some s => parseIsoChars (replaceZ s.data)

/-! ## JSON data model of one export file -/

/-- Model of `author` object of a message (missing fields are `none`). -/
structure Author where
  name : Option String
  discriminator : Option String
  id : Option String
deriving DecidableEq

/-- Model of `reference` object of a reply message. -/
structure MsgReference where
  messageId : Option String
deriving DecidableEq

/-- One message record. -/
structure Message where
  id : Option String
  author : Author
  timestamp : Option String
  content : Option String
  reference : Option MsgReference
deriving DecidableEq

/-- Model of `guild` object of an export file. -/
structure Guild where
  id : Option String
  name : Option String
deriving DecidableEq

/-- Model of `channel` object of an export file. -/
structure Channel where
  id : Option String
  name : Option String
deriving DecidableEq

/-- One parsed export file. -/
structure ExportFile where
  guild : Option Guild
  channel : Option Channel
  messages : List Message
deriving DecidableEq

/-- Python f-string rendering of a possibly missing value (a missing value
prints as the four letters None). -/
def optStr : Option String → String
  | none => "None"
  | some s => s

/-- Model of the guild dictionary access of the export (empty when missing). -/
def guildOf (data : ExportFile) : Guild := data.guild.getD ⟨none, none⟩

/-- Model of the channel dictionary access of the export (empty when missing). -/
def channelOf (data : ExportFile) : Channel := data.channel.getD ⟨none, none⟩

/-! ## Stable chronological sort (sorted by the datetime key) -/

/-- ASCII lowercasing, `str.lower()` (structurally, so that concrete runs
evaluate). -/
def pyLower (s : String) : String :=
  String.mk (s.data.map Char.toLower)

/-- The Python stable sort by an integer key: with a transitive total `≤` the
stable sorted list is unique, and `List.insertionSort` computes it. -/
def sortByKey {α : Type} (key : α → Int) (l : List α) : List α :=
  List.insertionSort (fun a b => key a ≤ key b) l

/-! ## `src/dirvine_digest.py` — `DirvineDigestGenerator` -/

/-- The target username of the digest generator (fixed in the constructor). -/
def dirvine_target : String := "dirvine."

/-- First pass of `_process_file`: the IDs of messages whose author name,
lowercased, equals the target (`dirvine_message_ids`; a membership-tested set
in the source, here the witnessing list). -/
def dirvine_message_ids (messages : List Message) : List (Option String) :=
  (messages.filter (fun m => pyLower (m.author.name.getD "") == dirvine_target)).map
    (fun m => m.id)

/-- The entry dictionary built by `_process_file` for a collected message. -/
structure DigestEntry where
  datetime : PyDateTime
  date : Int
  time : String
  channel : String
  server : String
  author : String
  content : String
  is_dirvine : Bool
  is_reply_to_dirvine : Bool
  replied_to_msg : Option Message
  message_url : String
deriving DecidableEq

/-- Two-digit zero-padded number (for the time-of-day format HH:MM:SS). -/
def pad2 (n : Nat) : String :=
  if n < 10 then "0" ++ toString n else toString n

/-- Format of the entry time field, HH:MM:SS. -/
def hmsString (dt : PyDateTime) : String :=
  pad2 dt.hour ++ ":" ++ pad2 dt.minute ++ ":" ++ pad2 dt.second

/-- Second pass of `_process_file` for one message: `none` when the timestamp
fails to parse (the bare except clause continues the loop) or the message is neither by dirvine nor a
reply to him; otherwise the entry appended to the collections.  When the
reference ID is in the dirvine set, the original message is resolved by the
linear search with next over the message list of the same file. -/
def digestClassify (channel_name guild_name : String) (gid cid : Option String)
    (ids : List (Option String)) (messages : List Message) (msg : Message) :
    Option DigestEntry :=
  match tryParseTimestamp msg.timestamp with
  | none => none
  | some dt =>
    let author := msg.author
    let is_dirvine := pyLower (author.name.getD "") == dirvine_target
    let refState : Bool × Option Message :=
      match msg.reference with
      | some r =>
        if ids.contains r.messageId then
          (true, messages.find? (fun m => m.id == r.messageId))
        else (false, none)
      | none => (false, none)
    if is_dirvine || refState.1 then
      some
        { datetime := dt
          date := dt.dateOrdinal
          time := hmsString dt
          channel := channel_name
          server := guild_name
          author := optStr author.name
          content := msg.content.getD ""
          is_dirvine := is_dirvine
          is_reply_to_dirvine := refState.1
          replied_to_msg := refState.2
          message_url := "https://discord.com/channels/" ++ optStr gid ++ "/"
            ++ optStr cid ++ "/" ++ optStr msg.id }
    else none

/-- Accumulated state of the generator: `self.all_messages` and
`self.messages_by_date` (a defaultdict in insertion order, as an association
list keyed by day ordinal). -/
structure DigestState where
  all_messages : List DigestEntry
  messages_by_date : List (Int × List DigestEntry)
deriving DecidableEq

/-- Fresh generator state (`__init__`). -/
def digestInit : DigestState := ⟨[], []⟩

/-- Model of the append to the by-date defaultdict of the generator. -/
def addByDate : List (Int × List DigestEntry) → Int → DigestEntry →
    List (Int × List DigestEntry)
  | [], d, e => [(d, [e])]
  | (d', l) :: rest, d, e =>
    if d' = d then (d', l ++ [e]) :: rest
    else (d', l) :: addByDate rest d e

/-- One iteration of the collection loop of `_process_file`. -/
def digestStep (channel_name guild_name : String) (gid cid : Option String)
    (ids : List (Option String)) (messages : List Message)
    (s : DigestState) (msg : Message) : DigestState :=
  match digestClassify channel_name guild_name gid cid ids messages msg with
  | none => s
  | some e => ⟨s.all_messages ++ [e], addByDate s.messages_by_date e.date e⟩

/-- Model of the channel_name extraction of `_process_file` (default Unknown). -/
def dChannelName (data : ExportFile) : String :=
  (channelOf data).name.getD "Unknown"

/-- Model of the guild_name extraction of `_process_file` (default Unknown). -/
def dGuildName (data : ExportFile) : String :=
  (guildOf data).name.getD "Unknown"

/-- Model of `digestClassify` with the metadata `_process_file` extracts from `data`. -/
def digestClassifyOfFile (data : ExportFile) (msg : Message) : Option DigestEntry :=
  digestClassify (dChannelName data) (dGuildName data) (guildOf data).id
    (channelOf data).id (dirvine_message_ids data.messages) data.messages msg

/-- Model of `DirvineDigestGenerator._process_file`: `none` stands for a file whose
read/JSON parse raised (logged and skipped, state untouched). -/
def process_file (s : DigestState) (data? : Option ExportFile) : DigestState :=
  match data? with
  | none => s
  | some data =>
    data.messages.foldl
      (digestStep (dChannelName data) (dGuildName data) (guildOf data).id
        (channelOf data).id (dirvine_message_ids data.messages) data.messages) s

/-- The entries `_process_file` appends to `self.all_messages` for one file,
in message order. -/
def digestFileEntries (data : ExportFile) : List DigestEntry :=
  data.messages.filterMap (digestClassifyOfFile data)

/-- Chronological stable sort used by both digest outputs
(both digest outputs sort by the datetime key). -/
def sortDigestEntries (l : List DigestEntry) : List DigestEntry :=
  sortByKey (fun e => e.datetime.utcMicros) l

/-- The message sequence rendered by `generate_complete_archive` (the state is
not modified; an empty collection produces no output file). -/
def generate_complete_archive_messages (s : DigestState) : List DigestEntry :=
  sortDigestEntries s.all_messages

/-- Model of the cutoff date: the current date minus the day-count window. -/
def cutoff_date (now : PyDateTime) (days : Int) : Int :=
  now.dateOrdinal - days

/-- The list-comprehension filter of `generate_weekly_digest`:
keep a message when its date is at least the cutoff date. -/
def recent_messages (now : PyDateTime) (days : Int) (s : DigestState) :
    List DigestEntry :=
  s.all_messages.filter (fun m => decide (cutoff_date now days ≤ m.date))

/-- The message sequence rendered by `generate_weekly_digest`. -/
def generate_weekly_digest_messages (now : PyDateTime) (days : Int)
    (s : DigestState) : List DigestEntry :=
  sortDigestEntries (recent_messages now days s)

/-- Default of the `days` parameter of `generate_weekly_digest` (and of the
`--days` CLI flag). -/
def weekly_default_days : Int := 7

/-- Model of `_write_message`: the sequence of `f.write` payloads for one entry. -/
def write_message (msg : DigestEntry) : List String :=
  let channelBadge := "**[#" ++ msg.channel ++ "]** "
  let timeBadge := "`" ++ msg.time ++ "` "
  let link := "[View in Discord](" ++ msg.message_url ++ ")\n\n"
  let body : List String :=
    if msg.is_dirvine then
      let header := "**" ++ msg.author ++ "** said:\n\n"
      let ctx : List String :=
        match msg.replied_to_msg with
        | some replied =>
          let replied_author := replied.author.name.getD "Unknown"
          let replied_content := replied.content.getD ""
          ["> *Replying to " ++ replied_author ++ ":*\n",
           "> " ++ replied_content ++ "\n\n"]
        | none => []
      header :: ctx ++ [msg.content ++ "\n\n"]
    else if msg.is_reply_to_dirvine then
      let header := "**" ++ msg.author ++ "** replied to dirvine:\n\n"
      let ctx : List String :=
        match msg.replied_to_msg with
        | some replied =>
          let dirvine_content := replied.content.getD ""
          ["> *dirvine said:*\n", "> " ++ dirvine_content ++ "\n\n"]
        | none => []
      header :: ctx ++ [msg.content ++ "\n\n"]
    else []
  channelBadge :: timeBadge :: body ++ [link, "---\n\n"]

/-! ## `src/discord_analyser.py` — `DiscordMessageAnalyzer` -/

/-- Python truthiness of the optional discriminator filter (`None` and the
empty string are falsy). -/
def discTruthy : Option String → Bool
  | none => false
  | some s => !s.isEmpty

/-- Constructor arguments of the analyzer: `__init__` lowercases the target
username (`mkAnalyzerConfig` below); `target_discriminator` is optional. -/
structure AnalyzerConfig where
  target_username : String
  target_discriminator : Option String
deriving DecidableEq

/-- Model of `DiscordMessageAnalyzer.__init__`. -/
def mkAnalyzerConfig (username : String) (discriminator : Option String) :
    AnalyzerConfig :=
  ⟨pyLower username, discriminator⟩

/-- Model of `DiscordMessageAnalyzer.matches_target_user`: case-insensitive name
equality; discriminator equality only when a (truthy) discriminator filter was
supplied; a missing discriminator field defaults to the string 0000. -/
def matches_target_user (cfg : AnalyzerConfig) (author : Author) : Bool :=
  let author_name := pyLower (author.name.getD "")
  let author_discriminator := author.discriminator.getD "0000"
  if author_name != cfg.target_username then false
  else if discTruthy cfg.target_discriminator
      && author_discriminator != cfg.target_discriminator.getD "" then false
  else true

/-- First pass of `extract_from_file`: the IDs of the messages of the target. -/
def target_message_ids (cfg : AnalyzerConfig) (messages : List Message) :
    List (Option String) :=
  (messages.filter (fun m => matches_target_user cfg m.author)).map (fun m => m.id)

/-- The entry dictionary built by `extract_from_file` (the pass-through
`attachments` / `embeds` / `reactions` lists are not modelled); the outer `Option` of `replying_to` is the presence of the key. -/
structure AEntry where
  message_id : Option String
  timestamp : Option String
  datetime : PyDateTime
  author : String
  author_id : Option String
  content : String
  channel : String
  channel_id : String
  server : String
  type : String
  replying_to : Option (Option String)
deriving DecidableEq

/-- Analyzer state: `self.results` (a defaultdict in insertion order, as an
association list keyed by the channel identifier) and `self.stats`. -/
structure AnalyzerState where
  results : List (String × List AEntry)
  files_processed : Nat
  total_messages : Nat
  posts_by_user : Nat
  replies_to_user : Nat
deriving DecidableEq

/-- Fresh analyzer state (`__init__`). -/
def analyzerInit : AnalyzerState := ⟨[], 0, 0, 0, 0⟩

/-- Model of the append to the per-channel defaultdict of the analyzer. -/
def addResult : List (String × List AEntry) → String → AEntry →
    List (String × List AEntry)
  | [], k, e => [(k, [e])]
  | (k', l) :: rest, k, e =>
    if k' = k then (k', l ++ [e]) :: rest
    else (k', l) :: addResult rest k e

/-- The entry of the second pass of `extract_from_file` for one message, when
the message is collected (`if is_by_target … elif is_reply_to_target …`), and
which branch collected it (`true` = `posted_by_target`). -/
def analyzerClassify (cfg : AnalyzerConfig) (now : PyDateTime)
    (channel_name channel_id guild_name : String) (ids : List (Option String))
    (msg : Message) : Option (AEntry × Bool) :=
  let dt := (tryParseTimestamp msg.timestamp).getD now
  let entry : AEntry :=
    { message_id := msg.id
      timestamp := msg.timestamp
      datetime := dt
      author := optStr msg.author.name ++ "#" ++ msg.author.discriminator.getD "0000"
      author_id := msg.author.id
      content := msg.content.getD ""
      channel := channel_name
      channel_id := channel_id
      server := guild_name
      type := ""
      replying_to := none }
  let is_by_target := matches_target_user cfg msg.author
  let is_reply_to_target :=
    match msg.reference with
    | some r => ids.contains r.messageId
    | none => false
  if is_by_target then
    some
      ({ entry with
          type := "posted_by_target"
          replying_to :=
            match msg.reference with
            | some r => some r.messageId
            | none => none },
        true)
  else if is_reply_to_target then
    some
      ({ entry with
          type := "reply_to_target"
          replying_to :=
            match msg.reference with
            | some r => some r.messageId
            | none => none },
        false)
  else none

/-- One iteration of the second-pass loop: append the entry (if any) to the
result list of the channel and update the statistics of the branch taken. -/
def analyzerStep (cfg : AnalyzerConfig) (now : PyDateTime)
    (channel_name channel_id guild_name channel_identifier : String)
    (ids : List (Option String)) (s : AnalyzerState) (msg : Message) :
    AnalyzerState :=
  match analyzerClassify cfg now channel_name channel_id guild_name ids msg with
  | none => s
  | some (entry, byTarget) =>
    if byTarget then
      { s with
          results := addResult s.results channel_identifier entry
          posts_by_user := s.posts_by_user + 1
          total_messages := s.total_messages + 1 }
    else
      { s with
          results := addResult s.results channel_identifier entry
          replies_to_user := s.replies_to_user + 1
          total_messages := s.total_messages + 1 }

/-- Model of the channel_name extraction of `extract_from_file` (default Unknown Channel). -/
def aChannelName (data : ExportFile) : String :=
  (channelOf data).name.getD "Unknown Channel"

/-- Model of the channel_id extraction of `extract_from_file` (default Unknown ID). -/
def aChannelId (data : ExportFile) : String :=
  (channelOf data).id.getD "Unknown ID"

/-- Model of the guild_name extraction of `extract_from_file` (default Unknown Server). -/
def aGuildName (data : ExportFile) : String :=
  (guildOf data).name.getD "Unknown Server"

/-- Model of the channel_identifier: guild name, space-slash-space, channel name. -/
def channelIdentifierOf (data : ExportFile) : String :=
  aGuildName data ++ " / " ++ aChannelName data

/-- Model of `analyzerClassify` with the metadata `extract_from_file` extracts from
`data`. -/
def analyzerClassifyOfFile (cfg : AnalyzerConfig) (now : PyDateTime)
    (data : ExportFile) (msg : Message) : Option (AEntry × Bool) :=
  analyzerClassify cfg now (aChannelName data) (aChannelId data)
    (aGuildName data) (target_message_ids cfg data.messages) msg

/-- Model of `DiscordMessageAnalyzer.extract_from_file`: `none` stands for a file whose
read/JSON parse raised (logged and skipped before any state change). -/
def extract_from_file (cfg : AnalyzerConfig) (now : PyDateTime)
    (s : AnalyzerState) (data? : Option ExportFile) : AnalyzerState :=
  match data? with
  | none => s
  | some data =>
    let s' := data.messages.foldl
      (analyzerStep cfg now (aChannelName data) (aChannelId data)
        (aGuildName data) (channelIdentifierOf data)
        (target_message_ids cfg data.messages)) s
    { s' with files_processed := s'.files_processed + 1 }

/-- The entries `extract_from_file` appends to
`self.results[channel_identifier]` for one file, in message order. -/
def analyzerFileEntries (cfg : AnalyzerConfig) (now : PyDateTime)
    (data : ExportFile) : List AEntry :=
  data.messages.filterMap (fun m => (analyzerClassifyOfFile cfg now data m).map Prod.fst)

/-- Lookup of one channel in the results association list (the
entry list accumulated for one channel identifier). -/
def lookupChannel (r : List (String × List AEntry)) (k : String) : List AEntry :=
  ((r.find? (fun p => p.1 == k)).map Prod.snd).getD []

/-- Chronological stable sort of the entries of one channel
(the in-place sort by the datetime key in `generate_report`). -/
def sortAEntries (l : List AEntry) : List AEntry :=
  sortByKey (fun e => e.datetime.utcMicros) l

/-- The state effect of `DiscordMessageAnalyzer.generate_report`: with no
results it returns before writing anything; otherwise it sorts the stored entry list of every channel **in place** while iterating (the stats and the key order of
`self.results` are untouched). -/
def generate_report_state (s : AnalyzerState) : AnalyzerState :=
  if s.results.isEmpty then s
  else { s with results := s.results.map (fun p => (p.1, sortAEntries p.2)) }

/-- Replacement of underscores by spaces (the str replace method). -/
def underscoresToSpaces : List Char → List Char
  | [] => []
  | c :: cs =>
    (if c = '_' then ' ' else c) :: underscoresToSpaces cs

/-- Model of the str title method over ASCII: a letter starting a letter-run is uppercased,
every other letter is lowercased (`prev` = previous character was a letter). -/
def titleChars : Bool → List Char → List Char
  | _, [] => []
  | prev, c :: cs =>
    if c.isAlpha then
      (if prev then c.toLower else c.toUpper) :: titleChars true cs
    else c :: titleChars false cs

/-- Rendering of the entry type: underscores to spaces, then title case. -/
def typeTitle (t : String) : String :=
  String.mk (titleChars false (underscoresToSpaces t.data))

/-- The 80-dash separator of the analyzer report. -/
def dashSeparator : String := String.mk (List.replicate 80 '-')

/-- The sequence of `f.write` payloads `generate_report` emits for one entry
(lines 259–264 plus the separator; the unmodelled attachments/reactions
branches are omitted).  No quoted parent-message content is emitted: the
analyzer never resolves `replying_to` to a message. -/
def analyzerEntryLines (msg : AEntry) : List String :=
  ["[" ++ optStr msg.timestamp ++ "]\n",
   "Author: " ++ msg.author ++ "\n",
   "Type: " ++ typeTitle msg.type ++ "\n"]
  ++ (if msg.content.isEmpty then [] else ["Message: " ++ msg.content ++ "\n"])
  ++ [dashSeparator ++ "\n\n"]

/-! ## CLI of `dirvine_digest.py` (`main`, lines 221–248) -/

/-- The argparse namespace of the digest script (only the declared flags). -/
structure DigestArgs where
  exports : Option String
  archive_output : String
  weekly_output : String
  days : Int
  archive_only : Bool
  weekly_only : Bool
deriving DecidableEq

/-- Argparse defaults (`--exports` is required, hence initially absent). -/
def digestArgsDefaults : DigestArgs :=
  ⟨none, "dirvine_complete_archive.md", "dirvine_weekly_digest.md", 7, false, false⟩

/-- Token-by-token argparse model: value flags consume the next token,
`store_true` flags just set their field, anything unrecognized is an argparse
error (`none`), and a missing required `--exports` is rejected at the end.
`--archive-only` and `--weekly-only` are two independent `store_true` flags:
no mutually-exclusive group is declared. -/
def parseDigestArgsFrom : DigestArgs → List String → Option DigestArgs
  | a, [] => if a.exports.isSome then some a else none
  | a, t :: rest =>
    if t = "--exports" ∨ t = "-e" then
      match rest with
      | v :: rest' => parseDigestArgsFrom { a with exports := some v } rest'
      | [] => none
    else if t = "--archive-output" then
      match rest with
      | v :: rest' => parseDigestArgsFrom { a with archive_output := v } rest'
      | [] => none
    else if t = "--weekly-output" then
      match rest with
      | v :: rest' => parseDigestArgsFrom { a with weekly_output := v } rest'
      | [] => none
    else if t = "--days" then
      match rest with
      | v :: rest' =>
        match v.toInt? with
        | some n => parseDigestArgsFrom { a with days := n } rest'
        | none => none
      | [] => none
    else if t = "--archive-only" then
      parseDigestArgsFrom { a with archive_only := true } rest
    else if t = "--weekly-only" then
      parseDigestArgsFrom { a with weekly_only := true } rest
    else none

/-- Model of the argparse entry point of the digest script. -/
def parse_args (argv : List String) : Option DigestArgs :=
  parseDigestArgsFrom digestArgsDefaults argv

/-- Which reports `main` generates: the archive unless `--weekly-only`, the
weekly digest unless `--archive-only` (lines 244–248). -/
def digest_main_runs (a : DigestArgs) : Bool × Bool :=
  (!a.weekly_only, !a.archive_only)

/-! ## Invariant bookkeeping and auxiliary decidable predicates -/

/-- Total number of entries accumulated across all channels of
`self.results`. -/
def countEntries (r : List (String × List AEntry)) : Nat :=
  (r.map (fun p => p.2.length)).sum

/-- Does `hay` start with `needle`? -/
def startsWithChars : List Char → List Char → Bool
  | _, [] => true
  | [], _ :: _ => false
  | c :: cs, d :: ds => c == d && startsWithChars cs ds

/-- Does `needle` occur as a contiguous substring of `hay`? -/
def containsChars : List Char → List Char → Bool
  | [], needle => needle.isEmpty
  | c :: cs, needle => startsWithChars (c :: cs) needle || containsChars cs needle

/-! ## Concrete inputs used by counterexamples and witnesses -/

/-- Analyzer configured for `dirvine.` with no discriminator filter. -/
def acfg : AnalyzerConfig := mkAnalyzerConfig "dirvine." none

/-- A fixed current time for runs (the now value of the analyzer is naive). -/
def anow : PyDateTime := ⟨2025, 10, 8, 12, 0, 0, 0, none⟩

/-- Spec scenario, message A: hello by dirvine., id 1. -/
def msgA : Message :=
  ⟨some "1", ⟨some "dirvine.", none, none⟩, some "2025-10-01T10:00:00Z",
    some "hello", none⟩

/-- Spec scenario, message B: hi back by alice, reference id 1. -/
def msgB : Message :=
  ⟨some "2", ⟨some "alice", none, none⟩, some "2025-10-01T10:05:00Z",
    some "hi back", some ⟨some "1"⟩⟩

/-- Spec scenario export file. -/
def scenarioFile : ExportFile :=
  ⟨some ⟨some "g1", some "Guild"⟩, some ⟨some "c1", some "general"⟩, [msgA, msgB]⟩

/-- Datetime of message A. -/
def dtA : PyDateTime := ⟨2025, 10, 1, 10, 0, 0, 0, some 0⟩

/-- Datetime of message B. -/
def dtB : PyDateTime := ⟨2025, 10, 1, 10, 5, 0, 0, some 0⟩

/-- Day ordinal of the scenario date. -/
def scenarioDay : Int := daysFromCivil 2025 10 1

/-- Digest entry collected for message A. -/
def dEntryA : DigestEntry :=
  ⟨dtA, scenarioDay, "10:00:00", "general", "Guild", "dirvine.", "hello",
    true, false, none, "https://discord.com/channels/g1/c1/1"⟩

/-- Digest entry collected for message B (parent resolved to `msgA`). -/
def dEntryB : DigestEntry :=
  ⟨dtB, scenarioDay, "10:05:00", "general", "Guild", "alice", "hi back",
    false, true, some msgA, "https://discord.com/channels/g1/c1/2"⟩

/-- Analyzer entry collected for message A. -/
def aEntryA : AEntry :=
  ⟨some "1", some "2025-10-01T10:00:00Z", dtA, "dirvine.#0000", none, "hello",
    "general", "c1", "Guild", "posted_by_target", none⟩

/-- Analyzer entry collected for message B. -/
def aEntryB : AEntry :=
  ⟨some "2", some "2025-10-01T10:05:00Z", dtB, "alice#0000", none, "hi back",
    "general", "c1", "Guild", "reply_to_target", some (some "1")⟩

/-- A target-authored message whose timestamp is the literal not-a-date. -/
def badTsMsg : Message :=
  ⟨some "10", ⟨some "dirvine.", none, none⟩, some "not-a-date",
    some "bad stamp", none⟩

/-- A target-authored message with a valid timestamp. -/
def goodMsg : Message :=
  ⟨some "11", ⟨some "dirvine.", none, none⟩, some "2025-10-03T08:00:00Z",
    some "good stamp", none⟩

/-- File pairing an unparseable-timestamp record with a valid one. -/
def badTsFile : ExportFile := ⟨none, none, [badTsMsg, goodMsg]⟩

/-- File holding only the unparseable-timestamp record. -/
def c1File : ExportFile := ⟨none, none, [badTsMsg]⟩

/-- Digest entry the digest generator collects for `goodMsg`. -/
def goodDigestEntry : DigestEntry :=
  ⟨⟨2025, 10, 3, 8, 0, 0, 0, some 0⟩, daysFromCivil 2025 10 3, "08:00:00",
    "Unknown", "Unknown", "dirvine.", "good stamp", true, false, none,
    "https://discord.com/channels/None/None/11"⟩

/-- Analyzer entry for `badTsMsg`: fallback datetime `anow`. -/
def badNowEntry : AEntry :=
  ⟨some "10", some "not-a-date", anow, "dirvine.#0000", none, "bad stamp",
    "Unknown Channel", "Unknown ID", "Unknown Server", "posted_by_target", none⟩

/-- Analyzer entry for `goodMsg`. -/
def goodAEntry : AEntry :=
  ⟨some "11", some "2025-10-03T08:00:00Z", ⟨2025, 10, 3, 8, 0, 0, 0, some 0⟩,
    "dirvine.#0000", none, "good stamp", "Unknown Channel", "Unknown ID",
    "Unknown Server", "posted_by_target", none⟩

/-- Target-authored message with a missing timestamp field, id 1. -/
def c2Msg1 : Message :=
  ⟨some "1", ⟨some "dirvine.", none, none⟩, none, some "first", none⟩

/-- Reply by `alice` to the message above, with a valid timestamp. -/
def c2Msg2 : Message :=
  ⟨some "2", ⟨some "alice", none, none⟩, some "2025-10-02T09:00:00Z",
    some "re", some ⟨some "1"⟩⟩

/-- File where the message of the target has no parseable timestamp but is
referenced by a reply. -/
def c2File : ExportFile := ⟨none, none, [c2Msg1, c2Msg2]⟩

/-- The single digest entry collected from `c2File` (the reply). -/
def c2ReplyEntry : DigestEntry :=
  ⟨⟨2025, 10, 2, 9, 0, 0, 0, some 0⟩, daysFromCivil 2025 10 2, "09:00:00",
    "Unknown", "Unknown", "alice", "re", false, true, some c2Msg1,
    "https://discord.com/channels/None/None/2"⟩

/-- An entry dated 2025-01-01 (for the report-reordering counterexample). -/
def earlyE : AEntry :=
  ⟨none, none, ⟨2025, 1, 1, 0, 0, 0, 0, none⟩, "x#0000", none, "a", "c", "i",
    "s", "posted_by_target", none⟩

/-- An entry dated 2025-01-02. -/
def lateE : AEntry :=
  ⟨none, none, ⟨2025, 1, 2, 0, 0, 0, 0, none⟩, "x#0000", none, "b", "c", "i",
    "s", "posted_by_target", none⟩

/-- Analyzer state whose stored channel list is out of chronological order. -/
def c8State : AnalyzerState := ⟨[("c", [lateE, earlyE])], 1, 2, 2, 0⟩

/-- Two distinct entries with equal datetimes (stable-sort witness). -/
def wE1 : AEntry :=
  ⟨none, none, ⟨2025, 1, 1, 0, 0, 0, 0, none⟩, "x#0000", none, "a", "c", "i",
    "s", "posted_by_target", none⟩

/-- Second equal-datetime entry. -/
def wE2 : AEntry :=
  ⟨none, none, ⟨2025, 1, 1, 0, 0, 0, 0, none⟩, "x#0000", none, "b", "c", "i",
    "s", "posted_by_target", none⟩

/-- Digest entry dated exactly seven days before `anow` (window boundary). -/
def boundaryEntry : DigestEntry :=
  ⟨⟨2025, 10, 1, 0, 0, 0, 0, none⟩, daysFromCivil 2025 10 1, "00:00:00", "c",
    "s", "dirvine.", "x", true, false, none, "u"⟩

/-- Digest state holding only the boundary entry. -/
def boundaryState : DigestState :=
  ⟨[boundaryEntry], [(daysFromCivil 2025 10 1, [boundaryEntry])]⟩

/-- The argparse namespace with both `--archive-only` and `--weekly-only`. -/
def argsBoth : DigestArgs :=
  ⟨some "d", "dirvine_complete_archive.md", "dirvine_weekly_digest.md", 7,
    true, true⟩

/-! ## Helper lemmas -/

/-- Stable sort by key: the output is a permutation of the input. -/
theorem sortByKey_perm {α : Type} (key : α → Int) (l : List α) :
    (sortByKey key l).Perm l :=
  List.perm_insertionSort _ l

/-- Stable sort by key: the output is pairwise nondecreasing in the key. -/
theorem sortByKey_sorted {α : Type} (key : α → Int) (l : List α) :
    (sortByKey key l).Pairwise (fun a b => key a ≤ key b) := by
  haveI : IsTotal α (fun a b => key a ≤ key b) := ⟨fun a b => le_total _ _⟩
  haveI : IsTrans α (fun a b => key a ≤ key b) := ⟨fun _ _ _ hab hbc => le_trans hab hbc⟩
  exact List.sorted_insertionSort _ l

/-- Stable sort by key: an input pair in key order keeps its relative order,
in particular pairs with equal keys keep their input order. -/
theorem sortByKey_stable {α : Type} (key : α → Int) {l : List α} {a b : α}
    (hsub : [a, b].Sublist l) (hle : key a ≤ key b) :
    [a, b].Sublist (sortByKey key l) := by
  haveI : IsTotal α (fun a b => key a ≤ key b) := ⟨fun a b => le_total _ _⟩
  haveI : IsTrans α (fun a b => key a ≤ key b) := ⟨fun _ _ _ hab hbc => le_trans hab hbc⟩
  exact List.pair_sublist_insertionSort hle hsub

/-- Appending one entry grows the total entry count by one. -/
theorem countEntries_addResult (r : List (String × List AEntry)) (k : String) (e : AEntry) :
    countEntries (addResult r k e) = countEntries r + 1 := by
  induction r with
  | nil => simp [addResult, countEntries]
  | cons p rest ih =>
    obtain ⟨k', l⟩ := p
    by_cases h : k' = k
    · simp [addResult, h, countEntries]
      omega
    · simp [addResult, h, countEntries] at *
      omega

/-- Appending one entry appends it to the list stored under its key. -/
theorem lookupChannel_addResult (r : List (String × List AEntry)) (k : String) (e : AEntry) :
    lookupChannel (addResult r k e) k = lookupChannel r k ++ [e] := by
  induction r with
  | nil => simp [addResult, lookupChannel]
  | cons p rest ih =>
    obtain ⟨k', l⟩ := p
    by_cases h : k' = k
    · simp [addResult, h, lookupChannel]
    · have hb : (k' == k) = false := by simp [h]
      simp [addResult, h, lookupChannel, List.find?_cons, hb] at ih ⊢
      exact ih

/-- The results component of one analyzer loop iteration. -/
theorem analyzerStep_results (cfg : AnalyzerConfig) (now : PyDateTime)
    (cn ci gn ck : String) (ids : List (Option String)) (s : AnalyzerState)
    (m : Message) :
    (analyzerStep cfg now cn ci gn ck ids s m).results =
      match (analyzerClassify cfg now cn ci gn ids m).map Prod.fst with
      | none => s.results
      | some e => addResult s.results ck e := by
  unfold analyzerStep
  cases h : analyzerClassify cfg now cn ci gn ids m with
  | none => rfl
  | some p =>
    obtain ⟨e, b⟩ := p
    cases b <;> rfl

/-- The second pass of the analyzer appends, under the channel key, exactly
the classified entries in message order. -/
theorem analyzer_foldl_lookup (cfg : AnalyzerConfig) (now : PyDateTime)
    (cn ci gn ck : String) (ids : List (Option String)) (msgs : List Message) :
    ∀ s : AnalyzerState,
      lookupChannel ((msgs.foldl (analyzerStep cfg now cn ci gn ck ids) s).results) ck
        = lookupChannel s.results ck
          ++ msgs.filterMap (fun m => (analyzerClassify cfg now cn ci gn ids m).map Prod.fst) := by
  induction msgs with
  | nil => intro s; simp
  | cons m rest ih =>
    intro s
    rw [List.foldl_cons, List.filterMap_cons, ih]
    cases h : (analyzerClassify cfg now cn ci gn ids m).map Prod.fst with
    | none =>
      have hs : (analyzerStep cfg now cn ci gn ck ids s m).results = s.results := by
        rw [analyzerStep_results, h]
      rw [hs]
    | some e =>
      have hs : (analyzerStep cfg now cn ci gn ck ids s m).results
          = addResult s.results ck e := by
        rw [analyzerStep_results, h]
      rw [hs, lookupChannel_addResult]
      simp

/-- Per-file form of the previous lemma, for `extract_from_file`. -/
theorem extract_from_file_lookup (cfg : AnalyzerConfig) (now : PyDateTime)
    (data : ExportFile) (s : AnalyzerState) :
    lookupChannel ((extract_from_file cfg now s (some data)).results) (channelIdentifierOf data)
      = lookupChannel s.results (channelIdentifierOf data)
        ++ analyzerFileEntries cfg now data := by
  show lookupChannel ((data.messages.foldl
      (analyzerStep cfg now (aChannelName data) (aChannelId data) (aGuildName data)
        (channelIdentifierOf data) (target_message_ids cfg data.messages)) s).results)
      (channelIdentifierOf data) = _
  rw [analyzer_foldl_lookup]
  rfl

/-- The collection loop of the digest generator appends exactly the classified
entries in message order. -/
theorem digest_foldl_all (cn gn : String) (gid cid : Option String)
    (ids : List (Option String)) (all : List Message) (msgs : List Message) :
    ∀ s : DigestState,
      ((msgs.foldl (digestStep cn gn gid cid ids all) s).all_messages)
        = s.all_messages ++ msgs.filterMap (digestClassify cn gn gid cid ids all) := by
  induction msgs with
  | nil => intro s; simp
  | cons m rest ih =>
    intro s
    rw [List.foldl_cons, List.filterMap_cons, ih]
    cases h : digestClassify cn gn gid cid ids all m with
    | none =>
      have hs : (digestStep cn gn gid cid ids all s m) = s := by
        unfold digestStep; rw [h]
      rw [hs]
    | some e =>
      have hs : (digestStep cn gn gid cid ids all s m).all_messages
          = s.all_messages ++ [e] := by
        unfold digestStep; rw [h]
      rw [hs]
      simp

/-- Per-file form of the previous lemma, for `_process_file`. -/
theorem process_file_all (data : ExportFile) (s : DigestState) :
    (process_file s (some data)).all_messages
      = s.all_messages ++ digestFileEntries data := by
  show ((data.messages.foldl
      (digestStep (dChannelName data) (dGuildName data) (guildOf data).id
        (channelOf data).id (dirvine_message_ids data.messages) data.messages) s).all_messages) = _
  rw [digest_foldl_all]
  rfl

/-- The analyzer collects a message exactly when it is by the target or it
references an ID in the first-pass set. -/
theorem analyzerClassify_isSome_iff (cfg : AnalyzerConfig) (now : PyDateTime)
    (cn ci gn : String) (ids : List (Option String)) (m : Message) :
    (analyzerClassify cfg now cn ci gn ids m).isSome = true
      ↔ (matches_target_user cfg m.author = true
          ∨ ∃ r, m.reference = some r ∧ ids.contains r.messageId = true) := by
  cases href : m.reference with
  | none =>
    by_cases hb : matches_target_user cfg m.author = true <;>
      simp [analyzerClassify, href, hb]
  | some r =>
    by_cases hb : matches_target_user cfg m.author = true
    · simp [analyzerClassify, href, hb]
    · by_cases hc : r.messageId ∈ ids <;>
        simp [analyzerClassify, href, hb, hc]

/-- The digest generator collects a message exactly when its timestamp parses
and it is by dirvine or references an ID in the first-pass set. -/
theorem digestClassify_isSome_iff (cn gn : String) (gid cid : Option String)
    (ids : List (Option String)) (msgs : List Message) (m : Message) :
    (digestClassify cn gn gid cid ids msgs m).isSome = true
      ↔ ((tryParseTimestamp m.timestamp).isSome = true
          ∧ ((pyLower (m.author.name.getD "") == dirvine_target) = true
              ∨ ∃ r, m.reference = some r ∧ ids.contains r.messageId = true)) := by
  cases hp : tryParseTimestamp m.timestamp with
  | none => simp [digestClassify, hp]
  | some dt =>
    cases href : m.reference with
    | none =>
      by_cases hd : (pyLower (m.author.name.getD "") == dirvine_target) = true <;>
        simp [digestClassify, hp, href, hd]
    | some r =>
      by_cases hd : (pyLower (m.author.name.getD "") == dirvine_target) = true
      · simp [digestClassify, hp, href, hd]
      · by_cases hc : r.messageId ∈ ids <;>
          simp [digestClassify, hp, href, hd, hc]

/-- A message whose author matches the target is collected by the analyzer
with this entry, in the posted-by-target branch. -/
theorem analyzerClassify_of_matches (cfg : AnalyzerConfig) (now : PyDateTime)
    (cn ci gn : String) (ids : List (Option String)) (m : Message)
    (h : matches_target_user cfg m.author = true) :
    analyzerClassify cfg now cn ci gn ids m = some
      ({ message_id := m.id
         timestamp := m.timestamp
         datetime := (tryParseTimestamp m.timestamp).getD now
         author := optStr m.author.name ++ "#" ++ m.author.discriminator.getD "0000"
         author_id := m.author.id
         content := m.content.getD ""
         channel := cn
         channel_id := ci
         server := gn
         type := "posted_by_target"
         replying_to :=
           match m.reference with
           | some r => some r.messageId
           | none => none }, true) := by
  simp [analyzerClassify, h]

/-- A dirvine-authored message with a parseable timestamp is collected by the
digest generator. -/
theorem digestClassify_of_dirvine (cn gn : String) (gid cid : Option String)
    (ids : List (Option String)) (msgs : List Message) (m : Message)
    (dt : PyDateTime)
    (hname : (pyLower (m.author.name.getD "") == dirvine_target) = true)
    (hp : tryParseTimestamp m.timestamp = some dt) :
    (digestClassify cn gn gid cid ids msgs m).isSome = true := by
  rw [digestClassify_isSome_iff]
  exact ⟨by rw [hp]; rfl, Or.inl hname⟩

/-- A message whose timestamp fails to parse is skipped by the digest
generator. -/
theorem digestClassify_of_badTs (cn gn : String) (gid cid : Option String)
    (ids : List (Option String)) (msgs : List Message) (m : Message)
    (hp : tryParseTimestamp m.timestamp = none) :
    digestClassify cn gn gid cid ids msgs m = none := by
  simp [digestClassify, hp]

/-- A reply to a target-authored ID is collected with the parent resolved by
the linear search over the message list of the same file. -/
theorem digestClassify_reply (cn gn : String) (gid cid : Option String)
    (ids : List (Option String)) (msgs : List Message) (m : Message)
    (dt : PyDateTime) (r : MsgReference)
    (hp : tryParseTimestamp m.timestamp = some dt)
    (href : m.reference = some r)
    (hc : r.messageId ∈ ids) :
    digestClassify cn gn gid cid ids msgs m = some
      { datetime := dt
        date := dt.dateOrdinal
        time := hmsString dt
        channel := cn
        server := gn
        author := optStr m.author.name
        content := m.content.getD ""
        is_dirvine := pyLower (m.author.name.getD "") == dirvine_target
        is_reply_to_dirvine := true
        replied_to_msg := msgs.find? (fun mm => mm.id == r.messageId)
        message_url := "https://discord.com/channels/" ++ optStr gid ++ "/"
          ++ optStr cid ++ "/" ++ optStr m.id } := by
  simp [digestClassify, hp, href, hc]

/-- The datetime stored in a collected analyzer entry is the parsed timestamp,
or the fallback current time when parsing failed. -/
theorem analyzerClassify_datetime (cfg : AnalyzerConfig) (now : PyDateTime)
    (cn ci gn : String) (ids : List (Option String)) (m : Message)
    (e : AEntry) (b : Bool)
    (h : analyzerClassify cfg now cn ci gn ids m = some (e, b)) :
    e.datetime = (tryParseTimestamp m.timestamp).getD now := by
  by_cases hb : matches_target_user cfg m.author = true
  · simp [analyzerClassify, hb] at h
    rw [← h.1]
  · cases href : m.reference with
    | none => simp [analyzerClassify, hb, href] at h
    | some r =>
      by_cases hc : r.messageId ∈ ids
      · simp [analyzerClassify, hb, href, hc] at h
        rw [← h.1]
      · simp [analyzerClassify, hb, href, hc] at h

/-- One analyzer loop iteration preserves the statistics invariant. -/
theorem analyzerStep_inv (cfg : AnalyzerConfig) (now : PyDateTime)
    (cn ci gn ck : String) (ids : List (Option String)) (s : AnalyzerState)
    (m : Message)
    (h1 : s.total_messages = s.posts_by_user + s.replies_to_user)
    (h2 : s.total_messages = countEntries s.results) :
    ((analyzerStep cfg now cn ci gn ck ids s m).total_messages
        = (analyzerStep cfg now cn ci gn ck ids s m).posts_by_user
          + (analyzerStep cfg now cn ci gn ck ids s m).replies_to_user)
      ∧ ((analyzerStep cfg now cn ci gn ck ids s m).total_messages
          = countEntries (analyzerStep cfg now cn ci gn ck ids s m).results) := by
  unfold analyzerStep
  cases h : analyzerClassify cfg now cn ci gn ids m with
  | none => exact ⟨h1, h2⟩
  | some p =>
    obtain ⟨e, b⟩ := p
    cases b <;> simp [countEntries_addResult, h1, h2] <;> omega

/-- The whole second pass preserves the statistics invariant. -/
theorem analyzer_foldl_inv (cfg : AnalyzerConfig) (now : PyDateTime)
    (cn ci gn ck : String) (ids : List (Option String)) (msgs : List Message) :
    ∀ s : AnalyzerState,
      s.total_messages = s.posts_by_user + s.replies_to_user →
      s.total_messages = countEntries s.results →
      ((msgs.foldl (analyzerStep cfg now cn ci gn ck ids) s).total_messages
          = (msgs.foldl (analyzerStep cfg now cn ci gn ck ids) s).posts_by_user
            + (msgs.foldl (analyzerStep cfg now cn ci gn ck ids) s).replies_to_user)
        ∧ ((msgs.foldl (analyzerStep cfg now cn ci gn ck ids) s).total_messages
            = countEntries (msgs.foldl (analyzerStep cfg now cn ci gn ck ids) s).results) := by
  induction msgs with
  | nil => intro s h1 h2; exact ⟨h1, h2⟩
  | cons m rest ih =>
    intro s h1 h2
    rw [List.foldl_cons]
    obtain ⟨g1, g2⟩ := analyzerStep_inv cfg now cn ci gn ck ids s m h1 h2
    exact ih _ g1 g2

/-- Processing one file (or skipping an unreadable one) preserves the
statistics invariant. -/
theorem extract_from_file_inv (cfg : AnalyzerConfig) (now : PyDateTime)
    (s : AnalyzerState) (data? : Option ExportFile)
    (h1 : s.total_messages = s.posts_by_user + s.replies_to_user)
    (h2 : s.total_messages = countEntries s.results) :
    ((extract_from_file cfg now s data?).total_messages
        = (extract_from_file cfg now s data?).posts_by_user
          + (extract_from_file cfg now s data?).replies_to_user)
      ∧ ((extract_from_file cfg now s data?).total_messages
          = countEntries (extract_from_file cfg now s data?).results) := by
  cases data? with
  | none => exact ⟨h1, h2⟩
  | some data =>
    obtain ⟨g1, g2⟩ := analyzer_foldl_inv cfg now (aChannelName data)
      (aChannelId data) (aGuildName data) (channelIdentifierOf data)
      (target_message_ids cfg data.messages) data.messages s h1 h2
    exact ⟨g1, g2⟩

/-- Processing any file sequence preserves the statistics invariant. -/
theorem analyzer_files_inv (cfg : AnalyzerConfig) (now : PyDateTime)
    (files : List (Option ExportFile)) :
    ∀ s : AnalyzerState,
      s.total_messages = s.posts_by_user + s.replies_to_user →
      s.total_messages = countEntries s.results →
      ((files.foldl (extract_from_file cfg now) s).total_messages
          = (files.foldl (extract_from_file cfg now) s).posts_by_user
            + (files.foldl (extract_from_file cfg now) s).replies_to_user)
        ∧ ((files.foldl (extract_from_file cfg now) s).total_messages
            = countEntries (files.foldl (extract_from_file cfg now) s).results) := by
  induction files with
  | nil => intro s h1 h2; exact ⟨h1, h2⟩
  | cons d rest ih =>
    intro s h1 h2
    rw [List.foldl_cons]
    obtain ⟨g1, g2⟩ := extract_from_file_inv cfg now s d h1 h2
    exact ih _ g1 g2

/-- Sorting the stored per-channel lists does not change the channel keys. -/
theorem map_fst_sortResults (r : List (String × List AEntry)) :
    (r.map (fun p => (p.1, sortAEntries p.2))).map Prod.fst = r.map Prod.fst := by
  induction r with
  | nil => rfl
  | cons p rest ih => simp [ih]

/-- Sorting the stored per-channel lists relates the new and old results
pointwise: same key, new list is the stable sort of the old, a permutation. -/
theorem forall₂_sortResults (r : List (String × List AEntry)) :
    List.Forall₂ (fun p q => p.1 = q.1 ∧ p.2 = sortAEntries q.2 ∧ p.2.Perm q.2)
      (r.map (fun p => (p.1, sortAEntries p.2))) r := by
  induction r with
  | nil => exact List.Forall₂.nil
  | cons p rest ih =>
    exact List.Forall₂.cons ⟨rfl, rfl, sortByKey_perm _ _⟩ ih

/-! ## Claim theorems -/

/-- Claim C1, amended: in the analyzer, a message yields an entry in the
collected results if and only if its author matches the target (name equality
case-insensitively, discriminator equality only under a truthy filter) or its
reference messageId is in the set of target-authored IDs of the same file; in
the digest generator the same holds with the additional requirement that the
timestamp of the record parses (an unparseable record is skipped even when
target-authored).  The appended entries are exactly the classified messages in
file order, so references to IDs not target-authored in the same file never
cause inclusion. -/
theorem claim_C1 :
    (∀ (cfg : AnalyzerConfig) (now : PyDateTime) (data : ExportFile) (s : AnalyzerState),
        lookupChannel ((extract_from_file cfg now s (some data)).results) (channelIdentifierOf data)
          = lookupChannel s.results (channelIdentifierOf data)
            ++ analyzerFileEntries cfg now data)
    ∧ (∀ (cfg : AnalyzerConfig) (now : PyDateTime) (cn ci gn : String)
          (ids : List (Option String)) (m : Message),
        (analyzerClassify cfg now cn ci gn ids m).isSome = true
          ↔ (matches_target_user cfg m.author = true
              ∨ ∃ r, m.reference = some r ∧ ids.contains r.messageId = true))
    ∧ (∀ (data : ExportFile) (s : DigestState),
        (process_file s (some data)).all_messages = s.all_messages ++ digestFileEntries data)
    ∧ (∀ (cn gn : String) (gid cid : Option String) (ids : List (Option String))
          (msgs : List Message) (m : Message),
        (digestClassify cn gn gid cid ids msgs m).isSome = true
          ↔ ((tryParseTimestamp m.timestamp).isSome = true
              ∧ ((pyLower (m.author.name.getD "") == dirvine_target) = true
                  ∨ ∃ r, m.reference = some r ∧ ids.contains r.messageId = true))) :=
  ⟨extract_from_file_lookup, analyzerClassify_isSome_iff, process_file_all,
    digestClassify_isSome_iff⟩

/-- Claim C1, counterexample to the claim as stated: a file whose only message
is authored by the target but has the unparseable timestamp not-a-date leaves
the digest generator state unchanged — the target-authored record yields no
entry, refuting the only-if-free inclusion equivalence for the digest
variant. -/
theorem claim_C1_counterexample :
    process_file digestInit (some c1File) = digestInit
      ∧ (pyLower (badTsMsg.author.name.getD "") == dirvine_target) = true :=
  ⟨by decide, by decide⟩

/-- Claim C2, amended: the analyzer collects every target-authored message of
a parsed file exactly once (the per-file appended list is the classification
filterMap, which yields at most one entry per record, and a matching author
always classifies into the posted-by-target branch, regardless of how many
messages reference it); the digest generator likewise collects a dirvine
message exactly once when its timestamp parses, but zero times when it does
not. -/
theorem claim_C2 :
    (∀ (cfg : AnalyzerConfig) (now : PyDateTime) (data : ExportFile) (s : AnalyzerState),
        lookupChannel ((extract_from_file cfg now s (some data)).results) (channelIdentifierOf data)
          = lookupChannel s.results (channelIdentifierOf data)
            ++ analyzerFileEntries cfg now data)
    ∧ (∀ (cfg : AnalyzerConfig) (now : PyDateTime) (cn ci gn : String)
          (ids : List (Option String)) (m : Message),
        matches_target_user cfg m.author = true →
        analyzerClassify cfg now cn ci gn ids m = some
          ({ message_id := m.id
             timestamp := m.timestamp
             datetime := (tryParseTimestamp m.timestamp).getD now
             author := optStr m.author.name ++ "#" ++ m.author.discriminator.getD "0000"
             author_id := m.author.id
             content := m.content.getD ""
             channel := cn
             channel_id := ci
             server := gn
             type := "posted_by_target"
             replying_to :=
               match m.reference with
               | some r => some r.messageId
               | none => none }, true))
    ∧ (∀ (data : ExportFile) (s : DigestState),
        (process_file s (some data)).all_messages = s.all_messages ++ digestFileEntries data)
    ∧ (∀ (cn gn : String) (gid cid : Option String) (ids : List (Option String))
          (msgs : List Message) (m : Message) (dt : PyDateTime),
        (pyLower (m.author.name.getD "") == dirvine_target) = true →
        tryParseTimestamp m.timestamp = some dt →
        (digestClassify cn gn gid cid ids msgs m).isSome = true)
    ∧ (∀ (cn gn : String) (gid cid : Option String) (ids : List (Option String))
          (msgs : List Message) (m : Message),
        tryParseTimestamp m.timestamp = none →
        digestClassify cn gn gid cid ids msgs m = none) :=
  ⟨extract_from_file_lookup,
    fun cfg now cn ci gn ids m h => analyzerClassify_of_matches cfg now cn ci gn ids m h,
    process_file_all,
    fun cn gn gid cid ids msgs m dt hname hp =>
      digestClassify_of_dirvine cn gn gid cid ids msgs m dt hname hp,
    fun cn gn gid cid ids msgs m hp =>
      digestClassify_of_badTs cn gn gid cid ids msgs m hp⟩

/-- Witness for claim C2 at concrete inputs: message A of the scenario file is
classified exactly as the posted-by-target entry, and the first message of the
missing-timestamp file classifies to nothing in the digest generator. -/
theorem claim_C2_witness :
    analyzerClassify acfg anow "general" "c1" "Guild" [some "1"] msgA = some (aEntryA, true)
      ∧ digestClassify "Unknown" "Unknown" none none [some "1"] [c2Msg1, c2Msg2] c2Msg1 = none := by
  constructor
  · have h := claim_C2.2.1 acfg anow "general" "c1" "Guild" [some "1"] msgA (by decide)
    rw [h]
    decide
  · exact claim_C2.2.2.2.2 "Unknown" "Unknown" none none [some "1"] [c2Msg1, c2Msg2] c2Msg1 (by decide)

/-- Claim C2, counterexample to the claim as stated: in the digest generator a
target-authored message with a missing timestamp yields zero entries, not
exactly one, although the message list of its file parses (the reply
referencing it is still collected). -/
theorem claim_C2_counterexample :
    (process_file digestInit (some c2File)).all_messages = [c2ReplyEntry]
      ∧ c2ReplyEntry.author = "alice"
      ∧ (pyLower (c2Msg1.author.name.getD "") == dirvine_target) = true :=
  ⟨by decide, rfl, by decide⟩

/-- Claim C3: the literal not-a-date fails to parse; the digest generator
skips any record carrying it while the analyzer stores the fallback current
time as the datetime of the entry; and in both variants the remaining records
of the file are still processed (shown on a concrete two-record file). -/
theorem claim_C3 :
    tryParseTimestamp (some "not-a-date") = none
    ∧ (∀ (cn gn : String) (gid cid : Option String) (ids : List (Option String))
          (msgs : List Message) (m : Message),
        digestClassify cn gn gid cid ids msgs { m with timestamp := some "not-a-date" } = none)
    ∧ (∀ (cfg : AnalyzerConfig) (now : PyDateTime) (cn ci gn : String)
          (ids : List (Option String)) (m : Message) (e : AEntry) (b : Bool),
        analyzerClassify cfg now cn ci gn ids { m with timestamp := some "not-a-date" }
            = some (e, b) →
        e.datetime = now)
    ∧ (process_file digestInit (some badTsFile)).all_messages = [goodDigestEntry]
    ∧ (extract_from_file acfg anow analyzerInit (some badTsFile)).results
        = [("Unknown Server / Unknown Channel", [badNowEntry, goodAEntry])] := by
  refine ⟨by decide, ?_, ?_, by decide, by decide⟩
  · intro cn gn gid cid ids msgs m
    exact digestClassify_of_badTs cn gn gid cid ids msgs _
      (show tryParseTimestamp (some "not-a-date") = none by decide)
  · intro cfg now cn ci gn ids m e b h
    have hdt := analyzerClassify_datetime cfg now cn ci gn ids _ e b h
    rw [hdt]
    show (tryParseTimestamp (some "not-a-date")).getD now = now
    rw [show tryParseTimestamp (some "not-a-date") = none from by decide]
    rfl

/-- Witness for claim C3 at a concrete input: the analyzer entry collected for
the not-a-date record carries the fallback current time. -/
theorem claim_C3_witness : badNowEntry.datetime = anow :=
  claim_C3.2.2.1 acfg anow "Unknown Channel" "Unknown ID" "Unknown Server" []
    badTsMsg badNowEntry true (by decide)

/-- Claim C4, amended: in the digest generator, a reply to a target-authored
ID is collected with the referenced message resolved by a linear search over
the message list of the same file; when the parent is present its content is
rendered as quoted context, and when it is absent the quoted context is
omitted while the entry is still rendered; the spec scenario (A hello by
dirvine., B hi back by alice referencing A) produces both entries with the
quoted content hello on the entry of B.  The analyzer variant diverges: it
stores only the referenced messageId and renders no quoted context (see the
counterexample). -/
theorem claim_C4 :
    (∀ (cn gn : String) (gid cid : Option String) (ids : List (Option String))
        (msgs : List Message) (m : Message) (dt : PyDateTime) (r : MsgReference),
      tryParseTimestamp m.timestamp = some dt →
      m.reference = some r →
      r.messageId ∈ ids →
      digestClassify cn gn gid cid ids msgs m = some
        { datetime := dt
          date := dt.dateOrdinal
          time := hmsString dt
          channel := cn
          server := gn
          author := optStr m.author.name
          content := m.content.getD ""
          is_dirvine := pyLower (m.author.name.getD "") == dirvine_target
          is_reply_to_dirvine := true
          replied_to_msg := msgs.find? (fun mm => mm.id == r.messageId)
          message_url := "https://discord.com/channels/" ++ optStr gid ++ "/"
            ++ optStr cid ++ "/" ++ optStr m.id })
    ∧ (∀ (e : DigestEntry) (rm : Message),
        e.is_dirvine = false → e.is_reply_to_dirvine = true →
        e.replied_to_msg = some rm →
        ("> " ++ rm.content.getD "" ++ "\n\n") ∈ write_message e)
    ∧ (∀ e : DigestEntry,
        e.is_dirvine = false → e.is_reply_to_dirvine = true →
        e.replied_to_msg = none →
        write_message e = ["**[#" ++ e.channel ++ "]** ", "`" ++ e.time ++ "` ",
          "**" ++ e.author ++ "** replied to dirvine:\n\n", e.content ++ "\n\n",
          "[View in Discord](" ++ e.message_url ++ ")\n\n", "---\n\n"])
    ∧ ((process_file digestInit (some scenarioFile)).all_messages = [dEntryA, dEntryB]
        ∧ dEntryB.replied_to_msg = some msgA
        ∧ ("> hello\n\n") ∈ write_message dEntryB) := by
  refine ⟨digestClassify_reply, ?_, ?_, by decide, rfl, by decide⟩
  · intro e rm h1 h2 h3
    simp [write_message, h1, h2, h3]
  · intro e h1 h2 h3
    simp [write_message, h1, h2, h3]

/-- Witness for claim C4 at a concrete input: classifying message B of the
scenario file yields exactly the entry with the parent resolved to message
A. -/
theorem claim_C4_witness :
    digestClassify "general" "Guild" (some "g1") (some "c1") [some "1"] [msgA, msgB] msgB
      = some dEntryB := by
  have h := claim_C4.1 "general" "Guild" (some "g1") (some "c1") [some "1"] [msgA, msgB]
    msgB dtB ⟨some "1"⟩ (by decide) rfl (by decide)
  rw [h]
  decide

/-- Claim C4, counterexample to the claim as stated: on the scenario file the
analyzer classifies message B as a reply to the target but renders no quoted
parent content — none of its report lines contains the parent content
hello. -/
theorem claim_C4_counterexample :
    (extract_from_file acfg anow analyzerInit (some scenarioFile)).results
        = [("Guild / general", [aEntryA, aEntryB])]
      ∧ aEntryB.type = "reply_to_target"
      ∧ (analyzerEntryLines aEntryB).all
          (fun l => !(containsChars l.data ('h' :: 'e' :: 'l' :: 'l' :: 'o' :: []))) = true :=
  ⟨by decide, rfl, by decide⟩

/-- Claim C5: both variants sort output groups by the resolved timestamp with
a stable sort — the sorted list is a permutation of the collected entries,
pairwise nondecreasing in the datetime instant, and any input pair already in
key order (in particular any pair with equal timestamps) keeps its relative
collected order. -/
theorem claim_C5 :
    (∀ l : List AEntry,
        (sortAEntries l).Pairwise
          (fun a b => a.datetime.utcMicros ≤ b.datetime.utcMicros)
        ∧ (sortAEntries l).Perm l
        ∧ (∀ a b : AEntry, [a, b].Sublist l →
            a.datetime.utcMicros ≤ b.datetime.utcMicros →
            [a, b].Sublist (sortAEntries l)))
    ∧ (∀ l : List DigestEntry,
        (sortDigestEntries l).Pairwise
          (fun a b => a.datetime.utcMicros ≤ b.datetime.utcMicros)
        ∧ (sortDigestEntries l).Perm l
        ∧ (∀ a b : DigestEntry, [a, b].Sublist l →
            a.datetime.utcMicros ≤ b.datetime.utcMicros →
            [a, b].Sublist (sortDigestEntries l))) := by
  constructor
  · intro l
    exact ⟨sortByKey_sorted _ l, sortByKey_perm _ l,
      fun a b hs hl => sortByKey_stable _ hs hl⟩
  · intro l
    exact ⟨sortByKey_sorted _ l, sortByKey_perm _ l,
      fun a b hs hl => sortByKey_stable _ hs hl⟩

/-- Witness for claim C5 at a concrete input: two distinct entries with equal
datetimes keep their input order through the sort. -/
theorem claim_C5_witness :
    [wE1, wE2].Sublist (sortAEntries [wE1, wE2]) :=
  (claim_C5.1 [wE1, wE2]).2.2 wE1 wE2 (List.Sublist.refl _) (by decide)

/-- Claim C6: the weekly digest keeps an entry if and only if its date is at
least the current date minus the window (default 7 days); an entry dated
exactly at the cutoff is included — the boundary is inclusive. -/
theorem claim_C6 :
    (∀ (now : PyDateTime) (days : Int) (s : DigestState) (m : DigestEntry),
        m ∈ recent_messages now days s
          ↔ m ∈ s.all_messages ∧ cutoff_date now days ≤ m.date)
    ∧ weekly_default_days = 7
    ∧ (∀ (now : PyDateTime) (s : DigestState) (m : DigestEntry),
        m ∈ s.all_messages → m.date = cutoff_date now weekly_default_days →
        m ∈ recent_messages now weekly_default_days s) := by
  refine ⟨?_, rfl, ?_⟩
  · intro now days s m
    simp [recent_messages, List.mem_filter]
  · intro now s m hm hd
    simp [recent_messages, List.mem_filter, hm, hd]

/-- Witness for claim C6 at a concrete input: an entry dated exactly seven
days before the current date is kept by the seven-day window. -/
theorem claim_C6_witness :
    boundaryEntry ∈ recent_messages anow weekly_default_days boundaryState :=
  claim_C6.2.2 anow boundaryState boundaryEntry (by decide) (by decide)

/-- Claim C7, amended: the archive-only and weekly-only switches are two
independent flags, not a mutually exclusive pair; every combination is
accepted by the argument parser, the archive is generated unless weekly-only
is set and the weekly digest unless archive-only is set — so supplying both
yields an accepted run that generates neither report. -/
theorem claim_C7 :
    ∀ (b c : Bool),
      parse_args ("--exports" :: "d" ::
          ((if b then ["--archive-only"] else []) ++ (if c then ["--weekly-only"] else [])))
        = some { digestArgsDefaults with exports := some "d", archive_only := b, weekly_only := c }
      ∧ digest_main_runs
          { digestArgsDefaults with exports := some "d", archive_only := b, weekly_only := c }
        = (!c, !b) := by
  intro b c
  cases b <;> cases c <;> exact ⟨by decide, rfl⟩

/-- Claim C7, counterexample to the claim as stated: a command line carrying
both switches is accepted by the parser rather than rejected, and the
resulting run generates neither the archive nor the weekly digest. -/
theorem claim_C7_counterexample :
    parse_args ["--exports", "d", "--archive-only", "--weekly-only"] = some argsBoth
      ∧ digest_main_runs argsBoth = (false, false) :=
  ⟨by decide, rfl⟩

/-- Claim C8, amended: report generation adds and removes nothing — the
analyzer report leaves every statistic and the channel key order unchanged and
every stored channel list a permutation of what it was, and the digest archive
renders a permutation of the collected entries without touching the state —
but the analyzer sorts each stored channel list in place, so the stored order
does change whenever a list was not already chronological (see the
counterexample). -/
theorem claim_C8 :
    (∀ s : AnalyzerState,
        (generate_report_state s).files_processed = s.files_processed
        ∧ (generate_report_state s).total_messages = s.total_messages
        ∧ (generate_report_state s).posts_by_user = s.posts_by_user
        ∧ (generate_report_state s).replies_to_user = s.replies_to_user
        ∧ (generate_report_state s).results.map Prod.fst = s.results.map Prod.fst
        ∧ List.Forall₂ (fun p q => p.1 = q.1 ∧ p.2 = sortAEntries q.2 ∧ p.2.Perm q.2)
            (generate_report_state s).results s.results)
    ∧ (∀ ds : DigestState, (generate_complete_archive_messages ds).Perm ds.all_messages) := by
  constructor
  · intro s
    unfold generate_report_state
    by_cases h : s.results.isEmpty
    · rw [if_pos h]
      have hnil : s.results = [] := by
        cases hr : s.results with
        | nil => rfl
        | cons p rest => rw [hr] at h; simp [List.isEmpty] at h
      refine ⟨rfl, rfl, rfl, rfl, rfl, ?_⟩
      rw [hnil]
      exact List.Forall₂.nil
    · rw [if_neg h]
      exact ⟨rfl, rfl, rfl, rfl, map_fst_sortResults s.results,
        forall₂_sortResults s.results⟩
  · intro ds
    exact sortByKey_perm _ _

/-- Claim C8, counterexample to the claim as stated: on a state whose only
channel holds two entries in reverse chronological order, generating the
report reorders the stored list — the stored order is not left unchanged. -/
theorem claim_C8_counterexample :
    (generate_report_state c8State).results = [("c", [earlyE, lateE])]
      ∧ c8State.results = [("c", [lateE, earlyE])]
      ∧ earlyE ≠ lateE :=
  ⟨by decide, rfl, by decide⟩

/-- Claim C9: after the analyzer processes any sequence of files from a fresh
state, the total message count equals the posts-by-user count plus the
replies-to-user count, and equals the total number of entries accumulated
across all channels of the results. -/
theorem claim_C9 :
    ∀ (cfg : AnalyzerConfig) (now : PyDateTime) (files : List (Option ExportFile)),
      ((files.foldl (extract_from_file cfg now) analyzerInit).total_messages
          = (files.foldl (extract_from_file cfg now) analyzerInit).posts_by_user
            + (files.foldl (extract_from_file cfg now) analyzerInit).replies_to_user)
        ∧ ((files.foldl (extract_from_file cfg now) analyzerInit).total_messages
            = countEntries (files.foldl (extract_from_file cfg now) analyzerInit).results) :=
  fun cfg now files => analyzer_files_inv cfg now files analyzerInit rfl rfl

/-- Claim C10: with a discriminator filter 0000, an author with the matching
name and no discriminator field is accepted (the missing field defaults to the
literal 0000); an empty-string discriminator filter is falsy and disables
discriminator checking, behaving exactly like no filter; and a missing
discriminator field always behaves like an explicit 0000. -/
theorem claim_C10 :
    matches_target_user ⟨"dirvine.", some "0000"⟩ ⟨some "dirvine.", none, none⟩ = true
    ∧ (∀ (t : String) (a : Author),
        matches_target_user ⟨t, some ""⟩ a = matches_target_user ⟨t, none⟩ a)
    ∧ (∀ (t : String) (od : Option String) (n i : Option String),
        matches_target_user ⟨t, od⟩ ⟨n, none, i⟩
          = matches_target_user ⟨t, od⟩ ⟨n, some "0000", i⟩) := by
  refine ⟨by decide, ?_, ?_⟩
  · intro t a; rfl
  · intro t od n i; rfl
